import Mathlib

/-!
# Share-link access control in PowerBrief: shallow embedding

This file embeds the share-issuing and share-resolving logic of the
PowerBrief repository:

* `shareBriefBatch` / `shareBriefConcept`
  (src/lib/types/powerbrief.ts, share services section),
* the shared-batch public page fetch `fetchSharedBatch`
  (src/app/public/brief/[shareId]/page.tsx), and
* the shared-concept public page fetch `fetchSharedConcept`
  (the unnamed source file with `SharedConceptPage`).

Backend interaction (Supabase/PostgREST) is modelled explicitly:

* the persisted state is a `Store` holding the `brief_batches` and
  `brief_concepts` tables;
* each round trip the code performs is a `StoreOp`; `applyOp` gives its
  effect on the store.  A PostgREST `update({ col: v }).eq('id', x)` sets
  the named column to exactly the supplied value on every matching row
  (for a jsonb column this replaces the whole stored document — there is
  no implicit merge), and a `select` leaves the store unchanged;
* the jsonb containment filter `.contains('share_settings', {[shareId]: {}})`
  matches rows whose `share_settings` document has `shareId` as a key
  (every stored value under a key is an object, and every object
  jsonb-contains the empty object);
* nondeterministic ambient inputs (`crypto.randomUUID()`,
  `new Date()` / wall-clock "now", `window.location.origin`, and the
  outcome of the `fetch('/api/share/send-invitation', ...)` call) are
  passed as explicit parameters.

Timestamps are modelled as `Nat` (milliseconds since epoch, the ordering
`new Date(a) < new Date(b)` becomes `a < b`); a nullable/absent field is
an `Option`.
-/

deriving instance DecidableEq for Except

/-- `share_type` enumeration of the share services: how a share was issued. -/
inductive ShareType where
  | link : ShareType
  | email : ShareType
deriving DecidableEq, Repr

/-- The `ShareSettings` interface of powerbrief.ts: the caller-supplied
settings of a new share (`is_editable: boolean; expires_at: string | null;
email?: string`). -/
structure ShareSettings where
  is_editable : Bool
  expires_at : Option Nat
  email : Option String
deriving DecidableEq, Repr

/-- The settings record as persisted in the `share_settings` jsonb map and
read back by the public pages.  The pages read it as `Record<string, any>`,
so every field may be absent there (`is_editable` is accessed through the
JS truthiness coercion `!!`); the issuer always writes `created_at` and
`share_type` on top of the caller's `ShareSettings`. -/
structure StoredShareSettings where
  is_editable : Option Bool
  expires_at : Option Nat
  email : Option String
  created_at : Option Nat
  share_type : Option ShareType
deriving DecidableEq, Repr

/-- The `share_settings` jsonb column: a JSON object mapping share
identifiers to settings records, or SQL `NULL` (the field is optional on
the row).  JSON object keys are unique; the association list keeps the
first binding for a key authoritative, matching JS property lookup. -/
abbrev ShareMap : Type := Option (List (String × StoredShareSettings))

/-- The `brief_batches` row, restricted to the fields the share logic
touches (`id`, `name`, `brand_id`, `share_settings`). -/
structure BriefBatch where
  id : String
  name : String
  brand_id : String
  share_settings : ShareMap
deriving DecidableEq, Repr

/-- The `brief_concepts` row, restricted to the fields the share logic
touches (`id`, `brief_batch_id`, `concept_title`, `order_in_batch`,
`share_settings`). -/
structure BriefConcept where
  id : String
  brief_batch_id : String
  concept_title : String
  order_in_batch : Nat
  share_settings : ShareMap
deriving DecidableEq, Repr

/-- The persisted backend state: the two tables the share feature reads
and writes. -/
structure Store where
  brief_batches : List BriefBatch
  brief_concepts : List BriefConcept
deriving DecidableEq, Repr

/-- The `ShareResult` interface of powerbrief.ts: what the share services
return to the caller. -/
structure ShareResult where
  share_id : String
  share_url : String
deriving DecidableEq, Repr

/-- JS truthiness of a possibly-absent boolean, as in
`!!shareSettings.is_editable`: absent (`undefined`) is falsy. -/
def jsTruthy : Option Bool → Bool
  | some b => b
  | none => false

/-- Does a `share_settings` jsonb document have `k` among its keys?  This
is what `.contains('share_settings', { [k]: {} })` tests: a SQL `NULL`
column matches nothing, and an object containing key `k` (whose value is
itself an object) jsonb-contains `{ [k]: {} }`. -/
def shareMapHasKey (m : ShareMap) (k : String) : Bool :=
  match m with
  | none => false
  | some l => l.any (fun p => p.1 = k)

/-- JS property lookup `shareSettingsMap?.[k]` on the stored document:
`undefined` when the column is `NULL` or the key is absent. -/
def lookupShare (m : ShareMap) (k : String) : Option StoredShareSettings :=
  match m with
  | none => none
  | some l => (l.find? (fun p => p.1 = k)).map Prod.snd

/-- The expiry test of both public pages:
`shareSettings.expires_at && new Date(shareSettings.expires_at) < new Date()`.
An absent/`null` `expires_at` short-circuits to not-expired; otherwise the
stored time is compared strictly against the current wall clock. -/
def shareExpired (s : StoredShareSettings) (now : Nat) : Bool :=
  match s.expires_at with
  | none => false
  | some t => t < now

/-- The record the issuer persists under the fresh share identifier:
`{ ...shareSettings, created_at: new Date().toISOString(), share_type: shareType }`. -/
def toStoredSettings (s : ShareSettings) (now : Nat) (shareType : ShareType) :
    StoredShareSettings :=
  { is_editable := some s.is_editable
    expires_at := s.expires_at
    email := s.email
    created_at := some now
    share_type := some shareType }

/-- One backend round trip issued by the share feature. -/
inductive StoreOp where
  /-- `from('brief_batches').select('*, brands(*)').contains('share_settings', {[shareId]: {}})` -/
  | selectBatchesContains (shareId : String) : StoreOp
  /-- `from('brief_concepts').select('*').contains('share_settings', {[shareId]: {}})` -/
  | selectConceptsContains (shareId : String) : StoreOp
  /-- `from('brief_concepts').select('*').eq('brief_batch_id', batchId).order('order_in_batch')` -/
  | selectConceptsByBatch (batchId : String) : StoreOp
  /-- `from('brief_batches').update({share_settings: m}).eq('id', batchId).select()` -/
  | updateBatchShareSettings (batchId : String) (m : List (String × StoredShareSettings)) : StoreOp
  /-- `from('brief_concepts').update({share_settings: m}).eq('id', conceptId).select()` -/
  | updateConceptShareSettings (conceptId : String) (m : List (String × StoredShareSettings)) : StoreOp
deriving DecidableEq, Repr

/-- Is the round trip a pure `select` (no write)? -/
def StoreOp.isSelect : StoreOp → Bool
  | .selectBatchesContains _ => true
  | .selectConceptsContains _ => true
  | .selectConceptsByBatch _ => true
  | .updateBatchShareSettings _ _ => false
  | .updateConceptShareSettings _ _ => false

/-- Effect of a round trip on the persisted state.  A `select` changes
nothing.  A PostgREST `update({share_settings: m}).eq('id', x)` sets the
`share_settings` column to exactly `m` on every row whose `id` is `x`
(whole-document jsonb assignment, no merge); rows that do not match are
untouched, and matching zero rows is not an error. -/
def applyOp : StoreOp → Store → Store
  | .selectBatchesContains _, s => s
  | .selectConceptsContains _, s => s
  | .selectConceptsByBatch _, s => s
  | .updateBatchShareSettings batchId m, s =>
    { s with brief_batches :=
        s.brief_batches.map (fun b =>
          if b.id = batchId then { b with share_settings := some m } else b) }
  | .updateConceptShareSettings conceptId m, s =>
    { s with brief_concepts :=
        s.brief_concepts.map (fun c =>
          if c.id = conceptId then { c with share_settings := some m } else c) }

/-- Apply a sequence of round trips in order. -/
def applyOps (ops : List StoreOp) (s : Store) : Store :=
  ops.foldl (fun st op => applyOp op st) s

/-- Result rows of the batch containment query, in table order. -/
def runSelectBatchesContains (s : Store) (shareId : String) : List BriefBatch :=
  s.brief_batches.filter (fun b => shareMapHasKey b.share_settings shareId)

/-- Result rows of the concept containment query, in table order. -/
def runSelectConceptsContains (s : Store) (shareId : String) : List BriefConcept :=
  s.brief_concepts.filter (fun c => shareMapHasKey c.share_settings shareId)

/-- Insert a concept into a list kept ascending by `order_in_batch`
(stable: an incoming row goes before rows of equal order that follow it). -/
def insertByOrder (c : BriefConcept) : List BriefConcept → List BriefConcept
  | [] => [c]
  | d :: rest =>
    if c.order_in_batch ≤ d.order_in_batch then c :: d :: rest
    else d :: insertByOrder c rest

/-- Stable sort by `order_in_batch` ascending, the backend's
`.order('order_in_batch', { ascending: true })`. -/
def sortByOrder : List BriefConcept → List BriefConcept
  | [] => []
  | c :: rest => insertByOrder c (sortByOrder rest)

/-- Result rows of the concepts-of-a-batch query, ordered by
`order_in_batch` ascending. -/
def runSelectConceptsByBatch (s : Store) (batchId : String) : List BriefConcept :=
  sortByOrder (s.brief_concepts.filter (fun c => c.brief_batch_id = batchId))

/-- Outcome of the `fetch('/api/share/send-invitation', ...)` call: either
the request resolved or it threw (network failure / rejection). -/
inductive DispatchOutcome where
  | delivered : DispatchOutcome
  | failed : DispatchOutcome
deriving DecidableEq, Repr

/-- `shareBriefBatch(batchId, shareType, shareSettings)` of powerbrief.ts,
on the executions where the backend write itself reports no error (a
backend `error` makes the TS function throw; it never inspects how many
rows the update matched).  `shareId` stands for the fresh
`crypto.randomUUID()`, `origin` for `window.location.origin`, `now` for
`new Date()`, and `dispatch` for the outcome of the email-invitation
`fetch`, which the code catches and ignores (`// Continue even if email
fails`), so the returned value and the persisted state do not depend on
it. -/
def shareBriefBatch (store : Store) (origin : String) (now : Nat)
    (shareId : String) (batchId : String) (shareType : ShareType)
    (shareSettings : ShareSettings) (dispatch : DispatchOutcome) :
    Store × ShareResult :=
  let shareUrl := origin ++ "/public/brief/" ++ shareId
  let stored := toStoredSettings shareSettings now shareType
  let store1 := applyOp (.updateBatchShareSettings batchId [(shareId, stored)]) store
  let _emailAttempt := dispatch
  (store1, { share_id := shareId, share_url := shareUrl })

/-- `shareBriefConcept(conceptId, shareType, shareSettings)` of
powerbrief.ts, under the same modelling conventions as `shareBriefBatch`. -/
def shareBriefConcept (store : Store) (origin : String) (now : Nat)
    (shareId : String) (conceptId : String) (shareType : ShareType)
    (shareSettings : ShareSettings) (dispatch : DispatchOutcome) :
    Store × ShareResult :=
  let shareUrl := origin ++ "/public/concept/" ++ shareId
  let stored := toStoredSettings shareSettings now shareType
  let store1 := applyOp (.updateConceptShareSettings conceptId [(shareId, stored)]) store
  let _emailAttempt := dispatch
  (store1, { share_id := shareId, share_url := shareUrl })

/-- What the shared-batch page holds after a successful fetch: the batch
row, the editability flag, and the batch's concepts. -/
structure BatchView where
  batch : BriefBatch
  isEditable : Bool
  concepts : List BriefConcept
deriving DecidableEq, Repr

/-- Continuation of `fetchSharedBatch` once the containment query has a
first row `batchWithShare`: lines 61-101 of
src/app/public/brief/[shareId]/page.tsx. -/
def resolveBatchHit (store : Store) (batchWithShare : BriefBatch)
    (shareId : String) (now : Nat) : Except String BatchView :=
  match lookupShare batchWithShare.share_settings shareId with
  | none => .error "Share settings not found"
  | some shareSettings =>
    if shareExpired shareSettings now then
      .error "This shared link has expired"
    else
      .ok { batch := batchWithShare
            isEditable := jsTruthy shareSettings.is_editable
            concepts := runSelectConceptsByBatch store batchWithShare.id }

/-- `fetchSharedBatch` of the shared-batch public page
(src/app/public/brief/[shareId]/page.tsx): locate the batch whose
`share_settings` contains `shareId`, take the first result row, validate
the entry and its expiry, and yield the batch, the `!!is_editable` flag
and the batch's concepts; each early `setError(...)` is the corresponding
`.error` message. -/
def fetchSharedBatch (store : Store) (shareId : String) (now : Nat) :
    Except String BatchView :=
  match runSelectBatchesContains store shareId with
  | [] => .error "Shared content not found or has expired"
  | batchWithShare :: _ => resolveBatchHit store batchWithShare shareId now

/-- Continuation of `fetchSharedConcept` once the containment query has a
first row `conceptWithShare`: lines 42-58 of the `SharedConceptPage`
source. -/
def resolveConceptHit (conceptWithShare : BriefConcept) (shareId : String)
    (now : Nat) : Except String BriefConcept :=
  match lookupShare conceptWithShare.share_settings shareId with
  | none => .error "Share settings not found"
  | some shareSettings =>
    if shareExpired shareSettings now then
      .error "This shared link has expired"
    else
      .ok conceptWithShare

/-- `fetchSharedConcept` of the shared-concept public page (the
`SharedConceptPage` source file): locate the concept whose
`share_settings` contains `shareId`, take the first result row, validate
the entry and its expiry, and yield the concept. -/
def fetchSharedConcept (store : Store) (shareId : String) (now : Nat) :
    Except String BriefConcept :=
  match runSelectConceptsContains store shareId with
  | [] => .error "Shared concept not found or has expired"
  | conceptWithShare :: _ => resolveConceptHit conceptWithShare shareId now

/-- The backend round trips `fetchSharedBatch` issues, in order: the
containment select always; the concepts select only on the path that
reaches it (every earlier branch returns before the second query). -/
def fetchSharedBatchTrace (store : Store) (shareId : String) (now : Nat) :
    List StoreOp :=
  match runSelectBatchesContains store shareId with
  | [] => [.selectBatchesContains shareId]
  | batchWithShare :: _ =>
    match lookupShare batchWithShare.share_settings shareId with
    | none => [.selectBatchesContains shareId]
    | some shareSettings =>
      if shareExpired shareSettings now then
        [.selectBatchesContains shareId]
      else
        [.selectBatchesContains shareId, .selectConceptsByBatch batchWithShare.id]

/-- The backend round trips `fetchSharedConcept` issues: exactly the one
containment select, on every path. -/
def fetchSharedConceptTrace (shareId : String) : List StoreOp :=
  [.selectConceptsContains shareId]

/-! ## Helper lemmas -/

theorem filter_eq_nil_of_all_false {α : Type} {p : α → Bool} {l : List α}
    (h : ∀ a ∈ l, p a = false) : l.filter p = [] := by
  induction l with
  | nil => rfl
  | cons a l ih =>
    have ha := h a (by simp)
    have hl := ih fun b hb => h b (by simp [hb])
    simp [List.filter, ha, hl]

theorem map_eq_self_of_fixed {α : Type} {f : α → α} {l : List α}
    (h : ∀ a ∈ l, f a = a) : l.map f = l := by
  induction l with
  | nil => rfl
  | cons a l ih =>
    have ha := h a (by simp)
    have hl := ih fun b hb => h b (by simp [hb])
    simp [List.map, ha, hl]

theorem find_map_selective_update {α : Type} (P : α → Prop) [DecidablePred P]
    (g : α → α) (hp : ∀ a, P (g a) ↔ P a) {l : List α} {b : α}
    (h : l.find? (fun a => decide (P a)) = some b) :
    (l.map (fun a => if P a then g a else a)).find? (fun a => decide (P a)) =
      some (g b) := by
  induction l with
  | nil => cases h
  | cons a l ih =>
    by_cases hpa : P a
    · have hb : a = b := by simpa [List.find?, hpa] using h
      subst hb
      simp [List.find?, List.map, hpa, (hp a).mpr hpa]
    · have h' : l.find? (fun a => decide (P a)) = some b := by
        simpa [List.find?, hpa] using h
      have hga : ¬ P (g a) := fun hg => hpa ((hp a).mp hg)
      simp [List.find?, List.map, hpa, hga, ih h']

/-- Step lemma: when the containment query has at least one result row,
`fetchSharedBatch` continues with the first row. -/
theorem fetchSharedBatch_cons (store : Store) (shareId : String) (now : Nat)
    (b : BriefBatch) (rest : List BriefBatch)
    (hq : runSelectBatchesContains store shareId = b :: rest) :
    fetchSharedBatch store shareId now = resolveBatchHit store b shareId now := by
  unfold fetchSharedBatch
  rw [hq]

/-- Step lemma: when the containment query has at least one result row,
`fetchSharedConcept` continues with the first row. -/
theorem fetchSharedConcept_cons (store : Store) (shareId : String) (now : Nat)
    (c : BriefConcept) (rest : List BriefConcept)
    (hq : runSelectConceptsContains store shareId = c :: rest) :
    fetchSharedConcept store shareId now = resolveConceptHit c shareId now := by
  unfold fetchSharedConcept
  rw [hq]

/-- Step lemma: `resolveBatchHit` once the settings entry is present. -/
theorem resolveBatchHit_some (store : Store) (b : BriefBatch) (shareId : String)
    (now : Nat) (s : StoredShareSettings)
    (hs : lookupShare b.share_settings shareId = some s) :
    resolveBatchHit store b shareId now =
      if shareExpired s now then Except.error "This shared link has expired"
      else Except.ok { batch := b, isEditable := jsTruthy s.is_editable,
                       concepts := runSelectConceptsByBatch store b.id } := by
  unfold resolveBatchHit
  rw [hs]

/-- Step lemma: `resolveConceptHit` once the settings entry is present. -/
theorem resolveConceptHit_some (c : BriefConcept) (shareId : String)
    (now : Nat) (s : StoredShareSettings)
    (hs : lookupShare c.share_settings shareId = some s) :
    resolveConceptHit c shareId now =
      if shareExpired s now then Except.error "This shared link has expired"
      else Except.ok c := by
  unfold resolveConceptHit
  rw [hs]

/-! ## Witness fixtures: small concrete stores -/

/-- A persisted settings record with an absolute expiry at time 100. -/
def expiringSettings : StoredShareSettings :=
  { is_editable := some false, expires_at := some 100, email := none,
    created_at := some 1, share_type := some ShareType.link }

/-- A batch carrying one share entry `"share-A"` that expires at 100. -/
def expiringBatch : BriefBatch :=
  { id := "batch-1", name := "Launch batch", brand_id := "brand-1",
    share_settings := some [("share-A", expiringSettings)] }

/-- A concept of `expiringBatch` carrying one share entry `"share-C"` that
expires at 100. -/
def expiringConcept : BriefConcept :=
  { id := "concept-1", brief_batch_id := "batch-1", concept_title := "Hook",
    order_in_batch := 0, share_settings := some [("share-C", expiringSettings)] }

/-- Store holding `expiringBatch` and `expiringConcept`. -/
def expiringStore : Store :=
  { brief_batches := [expiringBatch], brief_concepts := [expiringConcept] }

/-! ## C1 -/

/-- C1 (code bug): issuing a second share is NOT an additive merge.  On a
batch whose `share_settings` already holds an entry for `"share-A"`,
`shareBriefBatch` with fresh identifier `"share-B"` persists a map holding
only the new entry: the PostgREST `update` assigns the whole jsonb column,
so the entry for `"share-A"` is destroyed rather than left unaltered. -/
theorem c1_second_share_overwrites_first_entry :
    let oldSettings : StoredShareSettings :=
      { is_editable := some true, expires_at := none, email := none,
        created_at := some 1, share_type := some ShareType.link }
    let batch0 : BriefBatch :=
      { id := "batch-1", name := "Launch batch", brand_id := "brand-1",
        share_settings := some [("share-A", oldSettings)] }
    let store0 : Store := { brief_batches := [batch0], brief_concepts := [] }
    let issued := shareBriefBatch store0 "https://app.example" 2 "share-B" "batch-1"
      ShareType.link { is_editable := false, expires_at := none, email := none }
      DispatchOutcome.delivered
    (issued.1.brief_batches.map fun b => lookupShare b.share_settings "share-A") = [none]
    ∧ (issued.1.brief_batches.map fun b => shareMapHasKey b.share_settings "share-B") = [true]
    ∧ issued.2 = { share_id := "share-B",
                   share_url := "https://app.example/public/brief/share-B" } := by
  decide

/-! ## C2 -/

/-- C2 (counterexample): at the exact instant `now = t` (here `t = 100`)
resolution of a share with `expires_at = t` succeeds — it does not fail
with the `Expired` message, contradicting the claim that resolution fails
whenever the current time is greater than or equal to `t`. -/
theorem c2_succeeds_at_exact_expiry_instant :
    fetchSharedBatch expiringStore "share-A" 100 =
      .ok { batch := expiringBatch, isEditable := false, concepts := [expiringConcept] }
    ∧ fetchSharedBatch expiringStore "share-A" 100 ≠ .error "This shared link has expired"
    ∧ fetchSharedConcept expiringStore "share-C" 100 = .ok expiringConcept
    ∧ fetchSharedConcept expiringStore "share-C" 100 ≠ .error "This shared link has expired" := by
  decide

/-- C2 (amended): for a resolvable share with `expires_at = t`, resolution
fails with `Expired` ("This shared link has expired") exactly when the
current time is strictly greater than `t`, and succeeds whenever
`now ≤ t` — including at the exact instant `now = t`.  This holds for both
the shared-batch and shared-concept pages. -/
theorem c2_expiry_strict_after (store : Store) (sidB sidC : String) (now t tc : Nat)
    (b : BriefBatch) (restB : List BriefBatch) (s : StoredShareSettings)
    (hq : runSelectBatchesContains store sidB = b :: restB)
    (hs : lookupShare b.share_settings sidB = some s)
    (ht : s.expires_at = some t)
    (c : BriefConcept) (restC : List BriefConcept) (sc : StoredShareSettings)
    (hqc : runSelectConceptsContains store sidC = c :: restC)
    (hsc : lookupShare c.share_settings sidC = some sc)
    (htc : sc.expires_at = some tc) :
    ((t < now → fetchSharedBatch store sidB now = .error "This shared link has expired")
      ∧ (now ≤ t → fetchSharedBatch store sidB now =
          .ok { batch := b, isEditable := jsTruthy s.is_editable,
                concepts := runSelectConceptsByBatch store b.id }))
    ∧ ((tc < now → fetchSharedConcept store sidC now = .error "This shared link has expired")
      ∧ (now ≤ tc → fetchSharedConcept store sidC now = .ok c)) := by
  have hb := fetchSharedBatch_cons store sidB now b restB hq
  have hb' := resolveBatchHit_some store b sidB now s hs
  have hc := fetchSharedConcept_cons store sidC now c restC hqc
  have hc' := resolveConceptHit_some c sidC now sc hsc
  constructor
  · constructor
    · intro hlt
      rw [hb, hb']
      simp [shareExpired, ht, hlt]
    · intro hle
      rw [hb, hb']
      simp [shareExpired, ht, Nat.not_lt.mpr hle]
  · constructor
    · intro hlt
      rw [hc, hc']
      simp [shareExpired, htc, hlt]
    · intro hle
      rw [hc, hc']
      simp [shareExpired, htc, Nat.not_lt.mpr hle]

/-- C2 witness: the amended boundary behaviour at `t = 100`, evaluated on
`expiringStore` at `now = 150` (strictly after: expired) and `now = 100`
(the boundary instant: success). -/
theorem c2_expiry_strict_after_witness :
    fetchSharedBatch expiringStore "share-A" 150 = .error "This shared link has expired"
    ∧ fetchSharedBatch expiringStore "share-A" 100 =
        .ok { batch := expiringBatch, isEditable := jsTruthy expiringSettings.is_editable,
              concepts := runSelectConceptsByBatch expiringStore expiringBatch.id }
    ∧ fetchSharedConcept expiringStore "share-C" 150 = .error "This shared link has expired"
    ∧ fetchSharedConcept expiringStore "share-C" 100 = .ok expiringConcept := by
  have h150 := c2_expiry_strict_after expiringStore "share-A" "share-C" 150 100 100
    expiringBatch [] expiringSettings (by decide) (by decide) (by decide)
    expiringConcept [] expiringSettings (by decide) (by decide) (by decide)
  have h100 := c2_expiry_strict_after expiringStore "share-A" "share-C" 100 100 100
    expiringBatch [] expiringSettings (by decide) (by decide) (by decide)
    expiringConcept [] expiringSettings (by decide) (by decide) (by decide)
  exact ⟨h150.1.1 (by decide), h100.1.2 (by decide),
         h150.2.1 (by decide), h100.2.2 (by decide)⟩

/-! ## C3 -/

/-- Step lemma: an empty containment result makes `fetchSharedBatch` fail
with its not-found message. -/
theorem fetchSharedBatch_nil (store : Store) (shareId : String) (now : Nat)
    (hq : runSelectBatchesContains store shareId = []) :
    fetchSharedBatch store shareId now =
      Except.error "Shared content not found or has expired" := by
  unfold fetchSharedBatch
  rw [hq]

/-- Step lemma: an empty containment result makes `fetchSharedConcept`
fail with its not-found message. -/
theorem fetchSharedConcept_nil (store : Store) (shareId : String) (now : Nat)
    (hq : runSelectConceptsContains store shareId = []) :
    fetchSharedConcept store shareId now =
      Except.error "Shared concept not found or has expired" := by
  unfold fetchSharedConcept
  rw [hq]

/-- C3 (counterexample): resolving a never-issued identifier on the
shared-concept page surfaces "Shared concept not found or has expired",
which is not the message "Shared content not found or has expired" the
claim asserts for resolution. -/
theorem c3_concept_not_found_message_differs :
    fetchSharedConcept { brief_batches := [], brief_concepts := [] } "never-issued" 0 =
      Except.error "Shared concept not found or has expired"
    ∧ "Shared concept not found or has expired" ≠ "Shared content not found or has expired" := by
  decide

/-- C3 (amended): for a share identifier no record's share-settings map
contains, both resolvers fail with their not-found message — the
shared-batch page with "Shared content not found or has expired" and the
shared-concept page with "Shared concept not found or has expired" —
without distinguishing never-existed from deleted. -/
theorem c3_unissued_share_not_found (store : Store) (shareId : String) (now : Nat)
    (hb : ∀ b ∈ store.brief_batches, shareMapHasKey b.share_settings shareId = false)
    (hc : ∀ c ∈ store.brief_concepts, shareMapHasKey c.share_settings shareId = false) :
    fetchSharedBatch store shareId now =
      Except.error "Shared content not found or has expired"
    ∧ fetchSharedConcept store shareId now =
      Except.error "Shared concept not found or has expired" := by
  have hqb : runSelectBatchesContains store shareId = [] :=
    filter_eq_nil_of_all_false hb
  have hqc : runSelectConceptsContains store shareId = [] :=
    filter_eq_nil_of_all_false hc
  exact ⟨fetchSharedBatch_nil store shareId now hqb,
         fetchSharedConcept_nil store shareId now hqc⟩

/-- C3 witness: on the store holding `expiringBatch` and
`expiringConcept`, the identifier `"share-Z"` was never issued and both
resolvers report not found. -/
theorem c3_unissued_share_not_found_witness :
    fetchSharedBatch expiringStore "share-Z" 3 =
      Except.error "Shared content not found or has expired"
    ∧ fetchSharedConcept expiringStore "share-Z" 3 =
      Except.error "Shared concept not found or has expired" :=
  c3_unissued_share_not_found expiringStore "share-Z" 3
    (by decide) (by decide)

/-! ## C4 -/

/-- A persisted settings record with no expiry and no `is_editable` field
(written by a historical writer that omitted it; the public page reads the
map as `Record<string, any>`). -/
def evergreenSettings : StoredShareSettings :=
  { is_editable := none, expires_at := none, email := none,
    created_at := some 1, share_type := some ShareType.link }

/-- A batch carrying one never-expiring share entry `"share-E"`. -/
def evergreenBatch : BriefBatch :=
  { id := "batch-2", name := "Evergreen batch", brand_id := "brand-1",
    share_settings := some [("share-E", evergreenSettings)] }

/-- A concept of `evergreenBatch` carrying one never-expiring share entry
`"share-F"`. -/
def evergreenConcept : BriefConcept :=
  { id := "concept-2", brief_batch_id := "batch-2", concept_title := "Evergreen hook",
    order_in_batch := 0, share_settings := some [("share-F", evergreenSettings)] }

/-- Store holding `evergreenBatch` and `evergreenConcept`. -/
def evergreenStore : Store :=
  { brief_batches := [evergreenBatch], brief_concepts := [evergreenConcept] }

/-- C4: for a resolvable share whose settings have no `expires_at`, the
expiry branch is never taken: resolution succeeds at every current time
`now`, on both the shared-batch and shared-concept pages, and in
particular never fails with the `Expired` message. -/
theorem c4_no_expiry_always_resolves (store : Store) (sidB sidC : String)
    (b : BriefBatch) (restB : List BriefBatch) (s : StoredShareSettings)
    (c : BriefConcept) (restC : List BriefConcept) (sc : StoredShareSettings)
    (hq : runSelectBatchesContains store sidB = b :: restB)
    (hs : lookupShare b.share_settings sidB = some s)
    (he : s.expires_at = none)
    (hqc : runSelectConceptsContains store sidC = c :: restC)
    (hsc : lookupShare c.share_settings sidC = some sc)
    (hec : sc.expires_at = none) :
    ∀ now : Nat,
      fetchSharedBatch store sidB now =
        Except.ok { batch := b, isEditable := jsTruthy s.is_editable,
                    concepts := runSelectConceptsByBatch store b.id }
      ∧ fetchSharedConcept store sidC now = Except.ok c := by
  intro now
  rw [fetchSharedBatch_cons store sidB now b restB hq,
      resolveBatchHit_some store b sidB now s hs,
      fetchSharedConcept_cons store sidC now c restC hqc,
      resolveConceptHit_some c sidC now sc hsc]
  constructor <;> simp [shareExpired, he, hec]

/-- C4 witness: both never-expiring shares of `evergreenStore` resolve
successfully at the far-future time 999999. -/
theorem c4_no_expiry_always_resolves_witness :
    fetchSharedBatch evergreenStore "share-E" 999999 =
      Except.ok { batch := evergreenBatch,
                  isEditable := jsTruthy evergreenSettings.is_editable,
                  concepts := runSelectConceptsByBatch evergreenStore evergreenBatch.id }
    ∧ fetchSharedConcept evergreenStore "share-F" 999999 = Except.ok evergreenConcept :=
  c4_no_expiry_always_resolves evergreenStore "share-E" "share-F"
    evergreenBatch [] evergreenSettings evergreenConcept [] evergreenSettings
    (by decide) (by decide) (by decide) (by decide) (by decide) (by decide) 999999

/-! ## C5 -/

/-- C5: on a successful batch resolution the page's editability flag is
`!!settings.is_editable`: it is `true` exactly when the stored record has
`is_editable` set to `true`, and an absent or `false` value yields
view-only (`false`). -/
theorem c5_editable_defaults_to_false (store : Store) (shareId : String) (now : Nat)
    (b : BriefBatch) (restB : List BriefBatch) (s : StoredShareSettings)
    (hq : runSelectBatchesContains store shareId = b :: restB)
    (hs : lookupShare b.share_settings shareId = some s)
    (hne : shareExpired s now = false) :
    fetchSharedBatch store shareId now =
      Except.ok { batch := b, isEditable := jsTruthy s.is_editable,
                  concepts := runSelectConceptsByBatch store b.id }
    ∧ (jsTruthy s.is_editable = true ↔ s.is_editable = some true) := by
  constructor
  · rw [fetchSharedBatch_cons store shareId now b restB hq,
        resolveBatchHit_some store b shareId now s hs]
    simp [hne]
  · cases hie : s.is_editable with
    | none => simp [jsTruthy]
    | some bb => cases bb <;> simp [jsTruthy]

/-- C5 witness: the evergreen share's stored record omits `is_editable`,
and its resolution yields the view-only flag. -/
theorem c5_editable_defaults_to_false_witness :
    (fetchSharedBatch evergreenStore "share-E" 7 =
        Except.ok { batch := evergreenBatch,
                    isEditable := jsTruthy evergreenSettings.is_editable,
                    concepts := runSelectConceptsByBatch evergreenStore evergreenBatch.id }
      ∧ (jsTruthy evergreenSettings.is_editable = true ↔
          evergreenSettings.is_editable = some true))
    ∧ jsTruthy evergreenSettings.is_editable = false :=
  ⟨c5_editable_defaults_to_false evergreenStore "share-E" 7
      evergreenBatch [] evergreenSettings (by decide) (by decide) (by decide),
   by decide⟩

/-! ## C6 -/

/-- C6: for an email share (`shareType = email`, email address present),
the outcome of the invitation dispatch is irrelevant to the operation: on
a store that does hold the owning rows, for every dispatch outcome —
including `failed` — `shareBriefBatch` and `shareBriefConcept` have
already persisted the share entry and still return
`{ share_id, share_url }` to the caller. -/
theorem c6_email_dispatch_failure_absorbed (store : Store) (origin : String)
    (now : Nat) (shareId batchId conceptId : String) (s : ShareSettings)
    (e : String) (b : BriefBatch) (c : BriefConcept)
    (hb : store.brief_batches.find? (fun x => x.id = batchId) = some b)
    (hc : store.brief_concepts.find? (fun x => x.id = conceptId) = some c)
    (he : s.email = some e) :
    ∀ d : DispatchOutcome,
      (shareBriefBatch store origin now shareId batchId ShareType.email s d).2 =
        { share_id := shareId, share_url := origin ++ "/public/brief/" ++ shareId }
      ∧ ((shareBriefBatch store origin now shareId batchId ShareType.email s d).1.brief_batches.find?
            (fun x => x.id = batchId)).map
          (fun x => lookupShare x.share_settings shareId) =
        some (some (toStoredSettings s now ShareType.email))
      ∧ (shareBriefConcept store origin now shareId conceptId ShareType.email s d).2 =
        { share_id := shareId, share_url := origin ++ "/public/concept/" ++ shareId }
      ∧ ((shareBriefConcept store origin now shareId conceptId ShareType.email s d).1.brief_concepts.find?
            (fun x => x.id = conceptId)).map
          (fun x => lookupShare x.share_settings shareId) =
        some (some (toStoredSettings s now ShareType.email)) := by
  intro d
  refine ⟨rfl, ?_, rfl, ?_⟩
  · have hfound := find_map_selective_update (fun x : BriefBatch => x.id = batchId)
      (fun x => { x with share_settings := some [(shareId, toStoredSettings s now ShareType.email)] })
      (fun a => Iff.rfl) hb
    simp only [shareBriefBatch, applyOp]
    rw [hfound]
    simp [lookupShare, List.find?]
  · have hfound := find_map_selective_update (fun x : BriefConcept => x.id = conceptId)
      (fun x => { x with share_settings := some [(shareId, toStoredSettings s now ShareType.email)] })
      (fun a => Iff.rfl) hc
    simp only [shareBriefConcept, applyOp]
    rw [hfound]
    simp [lookupShare, List.find?]

/-- C6 witness: issuing an email share for `evergreenBatch` and
`evergreenConcept` with a failing invitation dispatch still persists the
entry and returns the share id and URL. -/
theorem c6_email_dispatch_failure_absorbed_witness :
    (shareBriefBatch evergreenStore "https://app.example" 9 "share-M" "batch-2"
        ShareType.email { is_editable := true, expires_at := none, email := some "a@b.c" }
        DispatchOutcome.failed).2 =
      { share_id := "share-M", share_url := "https://app.example/public/brief/share-M" }
    ∧ ((shareBriefBatch evergreenStore "https://app.example" 9 "share-M" "batch-2"
          ShareType.email { is_editable := true, expires_at := none, email := some "a@b.c" }
          DispatchOutcome.failed).1.brief_batches.find? (fun x => x.id = "batch-2")).map
        (fun x => lookupShare x.share_settings "share-M") =
      some (some (toStoredSettings
        { is_editable := true, expires_at := none, email := some "a@b.c" } 9 ShareType.email))
    ∧ (shareBriefConcept evergreenStore "https://app.example" 9 "share-M" "concept-2"
        ShareType.email { is_editable := true, expires_at := none, email := some "a@b.c" }
        DispatchOutcome.failed).2 =
      { share_id := "share-M", share_url := "https://app.example/public/concept/share-M" }
    ∧ ((shareBriefConcept evergreenStore "https://app.example" 9 "share-M" "concept-2"
          ShareType.email { is_editable := true, expires_at := none, email := some "a@b.c" }
          DispatchOutcome.failed).1.brief_concepts.find? (fun x => x.id = "concept-2")).map
        (fun x => lookupShare x.share_settings "share-M") =
      some (some (toStoredSettings
        { is_editable := true, expires_at := none, email := some "a@b.c" } 9 ShareType.email)) :=
  c6_email_dispatch_failure_absorbed evergreenStore "https://app.example" 9
    "share-M" "batch-2" "concept-2"
    { is_editable := true, expires_at := none, email := some "a@b.c" } "a@b.c"
    evergreenBatch evergreenConcept (by decide) (by decide) (by decide)
    DispatchOutcome.failed

/-! ## C7 -/

/-- A live settings record used by the duplicate-identifier fixtures. -/
def dupSettings : StoredShareSettings :=
  { is_editable := some true, expires_at := none, email := none,
    created_at := some 1, share_type := some ShareType.link }

/-- First of two batches that both carry the identifier `"share-D"`. -/
def dupBatch1 : BriefBatch :=
  { id := "batch-3", name := "First batch", brand_id := "brand-1",
    share_settings := some [("share-D", dupSettings)] }

/-- Second of two batches that both carry the identifier `"share-D"`. -/
def dupBatch2 : BriefBatch :=
  { id := "batch-4", name := "Second batch", brand_id := "brand-1",
    share_settings := some [("share-D", dupSettings)] }

/-- First of two concepts that both carry the identifier `"share-G"`. -/
def dupConcept1 : BriefConcept :=
  { id := "concept-3", brief_batch_id := "batch-3", concept_title := "First hook",
    order_in_batch := 0, share_settings := some [("share-G", dupSettings)] }

/-- Second of two concepts that both carry the identifier `"share-G"`. -/
def dupConcept2 : BriefConcept :=
  { id := "concept-4", brief_batch_id := "batch-4", concept_title := "Second hook",
    order_in_batch := 1, share_settings := some [("share-G", dupSettings)] }

/-- Store in which the containment query for `"share-D"` (resp.
`"share-G"`) matches two rows. -/
def dupStore : Store :=
  { brief_batches := [dupBatch1, dupBatch2],
    brief_concepts := [dupConcept1, dupConcept2] }

/-- C7: when the containment query returns more than one matching record,
both resolvers continue deterministically with the first result row
(index 0) — resolution is exactly the single-hit continuation on that
first row, so the extra matches neither fail it nor get picked. -/
theorem c7_multi_match_takes_first (store : Store) (sidB sidC : String) (now : Nat)
    (b1 b2 : BriefBatch) (restB : List BriefBatch)
    (d1 d2 : BriefConcept) (restC : List BriefConcept)
    (hq : runSelectBatchesContains store sidB = b1 :: b2 :: restB)
    (hqc : runSelectConceptsContains store sidC = d1 :: d2 :: restC) :
    fetchSharedBatch store sidB now = resolveBatchHit store b1 sidB now
    ∧ fetchSharedConcept store sidC now = resolveConceptHit d1 sidC now :=
  ⟨fetchSharedBatch_cons store sidB now b1 (b2 :: restB) hq,
   fetchSharedConcept_cons store sidC now d1 (d2 :: restC) hqc⟩

/-- C7 witness: on `dupStore`, where two batches match `"share-D"` and two
concepts match `"share-G"`, resolution proceeds with `dupBatch1` and
`dupConcept1`. -/
theorem c7_multi_match_takes_first_witness :
    fetchSharedBatch dupStore "share-D" 5 = resolveBatchHit dupStore dupBatch1 "share-D" 5
    ∧ fetchSharedConcept dupStore "share-G" 5 = resolveConceptHit dupConcept1 "share-G" 5 :=
  c7_multi_match_takes_first dupStore "share-D" "share-G" 5
    dupBatch1 dupBatch2 [] dupConcept1 dupConcept2 []
    (by decide) (by decide)

/-! ## C8 -/

/-- C8 (counterexample): issuing a concept share for the concept with id
`"OWNER42"` produces the URL `origin ++ "/public/concept/" ++ shareId`;
the owning concept's id appears nowhere in it, contradicting the claim
that the concept path additionally carries the owning entity's id. -/
theorem c8_concept_url_lacks_owner_id :
    (shareBriefConcept
        { brief_batches := [],
          brief_concepts := [{ id := "OWNER42", brief_batch_id := "batch-1",
                               concept_title := "Hook", order_in_batch := 0,
                               share_settings := none }] }
        "https://app.example" 5 "sid123" "OWNER42" ShareType.link
        { is_editable := false, expires_at := none, email := none }
        DispatchOutcome.delivered).2 =
      { share_id := "sid123", share_url := "https://app.example/public/concept/sid123" }
    ∧ ¬ List.IsInfix "OWNER42".toList "https://app.example/public/concept/sid123".toList := by
  decide

/-- C8 (amended): every successful issue returns `share_id = shareId` and
a `share_url` composed of the caller's origin and a fixed path template
parameterized by the fresh `shareId` alone: `/public/brief/<shareId>` for
batch shares and `/public/concept/<shareId>` for concept shares — the
owning entity's id does not appear as a URL parameter for either kind. -/
theorem c8_share_url_shape (store : Store) (origin : String) (now : Nat)
    (shareId batchId conceptId : String) (ty : ShareType) (s : ShareSettings)
    (d : DispatchOutcome) :
    (shareBriefBatch store origin now shareId batchId ty s d).2 =
      { share_id := shareId, share_url := origin ++ "/public/brief/" ++ shareId }
    ∧ (shareBriefConcept store origin now shareId conceptId ty s d).2 =
      { share_id := shareId, share_url := origin ++ "/public/concept/" ++ shareId } :=
  ⟨rfl, rfl⟩

/-! ## C9 -/

/-- C9: share resolution is read-only.  For every store, identifier and
current time, the round-trip traces of the shared-batch page and the
shared-concept page consist solely of `select` operations, and replaying
them against the store leaves every persisted record unchanged. -/
theorem c9_resolution_is_read_only (store : Store) (shareId : String) (now : Nat) :
    applyOps (fetchSharedBatchTrace store shareId now) store = store
    ∧ applyOps (fetchSharedConceptTrace shareId) store = store
    ∧ (fetchSharedBatchTrace store shareId now).all StoreOp.isSelect = true
    ∧ (fetchSharedConceptTrace shareId).all StoreOp.isSelect = true := by
  refine ⟨?_, rfl, ?_, rfl⟩
  · unfold fetchSharedBatchTrace
    split
    · rfl
    · split
      · rfl
      · split <;> rfl
  · unfold fetchSharedBatchTrace
    split
    · rfl
    · split
      · rfl
      · split <;> rfl

/-! ## C10 -/

/-- C10: issuing a share against an `ownerId` that references no existing
row does not fail.  The update matches zero rows (which PostgREST does not
report as an error, and the services never check the returned row count),
so the store is left completely unchanged, yet the caller still receives
`{ share_id, share_url }` — and the freshly minted link then resolves to
the not-found outcome. -/
theorem c10_share_with_unknown_owner_silently_succeeds (store : Store)
    (origin : String) (now : Nat) (shareId batchId conceptId : String)
    (ty : ShareType) (s : ShareSettings) (d : DispatchOutcome)
    (hb : ∀ b ∈ store.brief_batches, ¬ b.id = batchId)
    (hc : ∀ c ∈ store.brief_concepts, ¬ c.id = conceptId)
    (hsb : ∀ b ∈ store.brief_batches, shareMapHasKey b.share_settings shareId = false)
    (hsc : ∀ c ∈ store.brief_concepts, shareMapHasKey c.share_settings shareId = false) :
    shareBriefBatch store origin now shareId batchId ty s d =
      (store, { share_id := shareId, share_url := origin ++ "/public/brief/" ++ shareId })
    ∧ shareBriefConcept store origin now shareId conceptId ty s d =
      (store, { share_id := shareId, share_url := origin ++ "/public/concept/" ++ shareId })
    ∧ fetchSharedBatch (shareBriefBatch store origin now shareId batchId ty s d).1 shareId now =
        Except.error "Shared content not found or has expired"
    ∧ fetchSharedConcept (shareBriefConcept store origin now shareId conceptId ty s d).1 shareId now =
        Except.error "Shared concept not found or has expired" := by
  have hmapb : store.brief_batches.map
      (fun x => if x.id = batchId then { x with share_settings := some [(shareId, toStoredSettings s now ty)] } else x) =
      store.brief_batches :=
    map_eq_self_of_fixed (fun a ha => if_neg (hb a ha))
  have hmapc : store.brief_concepts.map
      (fun x => if x.id = conceptId then { x with share_settings := some [(shareId, toStoredSettings s now ty)] } else x) =
      store.brief_concepts :=
    map_eq_self_of_fixed (fun a ha => if_neg (hc a ha))
  have h1 : shareBriefBatch store origin now shareId batchId ty s d =
      (store, { share_id := shareId, share_url := origin ++ "/public/brief/" ++ shareId }) := by
    simp only [shareBriefBatch, applyOp]
    rw [hmapb]
  have h2 : shareBriefConcept store origin now shareId conceptId ty s d =
      (store, { share_id := shareId, share_url := origin ++ "/public/concept/" ++ shareId }) := by
    simp only [shareBriefConcept, applyOp]
    rw [hmapc]
  have hqb : runSelectBatchesContains store shareId = [] :=
    filter_eq_nil_of_all_false hsb
  have hqc : runSelectConceptsContains store shareId = [] :=
    filter_eq_nil_of_all_false hsc
  refine ⟨h1, h2, ?_, ?_⟩
  · rw [h1]
    exact fetchSharedBatch_nil store shareId now hqb
  · rw [h2]
    exact fetchSharedConcept_nil store shareId now hqc

/-- C10 witness: against `evergreenStore`, issuing with the nonexistent
owner ids `"batch-X"` / `"concept-X"` and fresh identifier `"share-X"`
returns a share result, persists nothing, and the link resolves to not
found. -/
theorem c10_share_with_unknown_owner_silently_succeeds_witness :
    shareBriefBatch evergreenStore "https://app.example" 4 "share-X" "batch-X"
        ShareType.link { is_editable := false, expires_at := none, email := none }
        DispatchOutcome.delivered =
      (evergreenStore, { share_id := "share-X",
                         share_url := "https://app.example/public/brief/share-X" })
    ∧ shareBriefConcept evergreenStore "https://app.example" 4 "share-X" "concept-X"
        ShareType.link { is_editable := false, expires_at := none, email := none }
        DispatchOutcome.delivered =
      (evergreenStore, { share_id := "share-X",
                         share_url := "https://app.example/public/concept/share-X" })
    ∧ fetchSharedBatch (shareBriefBatch evergreenStore "https://app.example" 4 "share-X" "batch-X"
          ShareType.link { is_editable := false, expires_at := none, email := none }
          DispatchOutcome.delivered).1 "share-X" 4 =
        Except.error "Shared content not found or has expired"
    ∧ fetchSharedConcept (shareBriefConcept evergreenStore "https://app.example" 4 "share-X" "concept-X"
          ShareType.link { is_editable := false, expires_at := none, email := none }
          DispatchOutcome.delivered).1 "share-X" 4 =
        Except.error "Shared concept not found or has expired" :=
  c10_share_with_unknown_owner_silently_succeeds evergreenStore "https://app.example" 4
    "share-X" "batch-X" "concept-X" ShareType.link
    { is_editable := false, expires_at := none, email := none }
    DispatchOutcome.delivered (by decide) (by decide) (by decide) (by decide)
